import Mathlib

/-!
Verification of the real-time streaming subsystem of an Alpaca API client
(`alpaca_client/streaming.py`).  The Python class `AlpacaStream` is shallowly
embedded: its mutable state becomes explicit state passing, the network is an
oracle of scripted outcomes, Python exceptions become `Except`/flags, and
Python `set` becomes `Finset String`.  Every definition mirrors the source
method it is named after; line numbers refer to `streaming.py`.
-/

namespace Alpaca

/-- Python `s.upper()` restricted to the character set of ticker symbols:
per-character ASCII uppercasing, which is exactly `Char.toUpper`. -/
def upper (s : String) : String := ⟨s.data.map Char.toUpper⟩

/-- The list comprehension `[s.upper() for s in symbols]` used by
`subscribe`/`unsubscribe`. -/
def upperList (l : List String) : List String := l.map upper

/-- The `Subscription` dataclass (lines 49-57): six Python `set`s of symbols,
one per channel. -/
structure Subscription where
  trades : Finset String
  quotes : Finset String
  bars : Finset String
  daily_bars : Finset String
  statuses : Finset String
  lulds : Finset String
deriving DecidableEq

/-- The registry as initialized in `__init__` (line 108): all six sets empty. -/
def Subscription.init : Subscription := ⟨∅, ∅, ∅, ∅, ∅, ∅⟩

/-- A subscribe/unsubscribe JSON message: the `action` key plus one optional
symbol-list key per channel (`None` = key absent, mirroring the fact that the
Python dict only gains a key when the corresponding argument is truthy). -/
structure SubMsg where
  action : String
  trades : Option (List String)
  quotes : Option (List String)
  bars : Option (List String)
  dailyBars : Option (List String)
  statuses : Option (List String)
  lulds : Option (List String)
deriving DecidableEq

/-- The `msg = {"action": ...}` initializer in `subscribe`/`unsubscribe`. -/
def SubMsg.base (a : String) : SubMsg := ⟨a, none, none, none, none, none, none⟩

/-- The symbol set carried by an optional message key (for set-level
comparisons of message contents). -/
def msgSet (o : Option (List String)) : Finset String := (o.getD []).toFinset

/-- `AlpacaStream.subscribe` (lines 290-338), registry-and-message part:
builds the subscribe message and unions the uppercased symbols into the
registry.  A `None`/empty argument (falsy in Python) leaves both message and
registry untouched for that channel.  Returns the message to send together
with the updated registry. -/
def subscribe (trades quotes bars daily_bars statuses lulds : List String)
    (sub : Subscription) : SubMsg × Subscription :=
  let m0 := SubMsg.base "subscribe"
  let tU := upperList trades
  let qU := upperList quotes
  let bU := upperList bars
  let dU := upperList daily_bars
  let sU := upperList statuses
  let lU := upperList lulds
  (⟨m0.action,
    if trades ≠ [] then some tU else none,
    if quotes ≠ [] then some qU else none,
    if bars ≠ [] then some bU else none,
    if daily_bars ≠ [] then some dU else none,
    if statuses ≠ [] then some sU else none,
    if lulds ≠ [] then some lU else none⟩,
   ⟨if trades ≠ [] then sub.trades ∪ tU.toFinset else sub.trades,
    if quotes ≠ [] then sub.quotes ∪ qU.toFinset else sub.quotes,
    if bars ≠ [] then sub.bars ∪ bU.toFinset else sub.bars,
    if daily_bars ≠ [] then sub.daily_bars ∪ dU.toFinset else sub.daily_bars,
    if statuses ≠ [] then sub.statuses ∪ sU.toFinset else sub.statuses,
    if lulds ≠ [] then sub.lulds ∪ lU.toFinset else sub.lulds⟩)

/-- `AlpacaStream.unsubscribe` (lines 340-367): only four channels exist in
its signature (`trades`, `quotes`, `bars`, `daily_bars`); the uppercased
symbols are removed from the corresponding sets.  `statuses` and `lulds`
cannot be unsubscribed. -/
def unsubscribe (trades quotes bars daily_bars : List String)
    (sub : Subscription) : SubMsg × Subscription :=
  let m0 := SubMsg.base "unsubscribe"
  let tU := upperList trades
  let qU := upperList quotes
  let bU := upperList bars
  let dU := upperList daily_bars
  (⟨m0.action,
    if trades ≠ [] then some tU else none,
    if quotes ≠ [] then some qU else none,
    if bars ≠ [] then some bU else none,
    if daily_bars ≠ [] then some dU else none,
    none, none⟩,
   ⟨if trades ≠ [] then sub.trades \ tU.toFinset else sub.trades,
    if quotes ≠ [] then sub.quotes \ qU.toFinset else sub.quotes,
    if bars ≠ [] then sub.bars \ bU.toFinset else sub.bars,
    if daily_bars ≠ [] then sub.daily_bars \ dU.toFinset else sub.daily_bars,
    sub.statuses, sub.lulds⟩)

/-- Python `list(someSet)` enumerates the set in some order; the model uses
the canonical sorted enumeration (the claims only ever compare the resulting
symbol collections as sets). -/
def listOf (s : Finset String) : List String := s.sort (· ≤ ·)

/-- `AlpacaStream._resubscribe` (lines 238-252): if any of `trades`,
`quotes`, `bars`, `daily_bars` is nonempty, re-issue one combined `subscribe`
call built from those four sets only; `statuses` and `lulds` are not passed,
and if only they are populated nothing is sent at all.  Returns `none` when
no subscribe call is made. -/
def resubscribe (sub : Subscription) : Option (SubMsg × Subscription) :=
  if sub.trades ≠ ∅ ∨ sub.quotes ≠ ∅ ∨ sub.bars ≠ ∅ ∨ sub.daily_bars ≠ ∅ then
    some (subscribe (listOf sub.trades) (listOf sub.quotes) (listOf sub.bars)
      (listOf sub.daily_bars) [] [] sub)
  else
    none

/-! ## Handlers and dispatch -/

/-- A caller-supplied handler, identified by `id`; `throws` records whether
invoking it raises an exception. -/
structure Handler where
  id : Nat
  throws : Bool
deriving DecidableEq

/-- The `self._handlers : Dict[str, List[Callable]]` field: an association
list from message-kind tag to the ordered list of registered handlers
(`addHandler` keeps keys unique, as a Python dict does). -/
abbrev HandlerReg := List (String × List Handler)

/-- Python `event_type in self._handlers`. -/
def hasKey : HandlerReg → String → Bool
  | [], _ => false
  | (k₀, _) :: rest, k => k₀ = k || hasKey rest k

/-- Python `self._handlers.get(event_type, [])`. -/
def lookupHandlers : HandlerReg → String → List Handler
  | [], _ => []
  | (k₀, hs) :: rest, k => if k₀ = k then hs else lookupHandlers rest k

/-- Body of the decorator returned by `AlpacaStream.on` (lines 116-128):
create the key with an empty list if absent, then append the handler. -/
def addHandler (reg : HandlerReg) (k : String) (h : Handler) : HandlerReg :=
  if hasKey reg k then
    reg.map (fun p => (p.1, if p.1 = k then p.2 ++ [h] else p.2))
  else
    reg ++ [(k, [h])]

/-- `AlpacaStream.on` applied to a function (named `onRegister` because `on`
is reserved in Lean): registers it and returns the original function
unchanged (`return func`). -/
def onRegister (reg : HandlerReg) (k : String) (f : Handler) : HandlerReg × Handler :=
  (addHandler reg k f, f)

/-- The record of one handler call: which handler ran, on which payload
(payloads are identified by a numeric id), and whether it returned normally
(`ok = false` means it raised and the exception was caught by `_emit`). -/
structure Invocation where
  hid : Nat
  payload : Nat
  ok : Bool
deriving DecidableEq

/-- Calling one handler on a payload inside the `try` of `_emit`. -/
def invoke (h : Handler) (p : Nat) : Invocation := ⟨h.id, p, !h.throws⟩

/-- The `for handler in handlers` loop of `AlpacaStream._emit`
(lines 371-382): each call sits in a `try`/`except` that logs and continues,
so the iteration always proceeds to the next handler. -/
def emitLoop (p : Nat) : List Handler → List Invocation
  | [] => []
  | h :: rest => invoke h p :: emitLoop p rest

/-- `AlpacaStream._emit` (lines 371-382). -/
def emit (reg : HandlerReg) (k : String) (p : Nat) : List Invocation :=
  emitLoop p (lookupHandlers reg k)

/-! ## Inbound messages -/

/-- A decoded JSON value as far as `_handle_message` inspects it: either a
JSON object (with its optional `T` tag, optional `msg` field, and a numeric
id standing for the remaining payload fields) or a non-object value, on
which `.get` raises `AttributeError`. -/
inductive JMsg where
  | dict (T : Option String) (msgField : Option String) (pid : Nat)
  | nondict (pid : Nat)
deriving DecidableEq

/-- The result of `json.loads` on a frame: a single object or an array. -/
inductive JData where
  | single (m : JMsg)
  | array (ms : List JMsg)
deriving DecidableEq

/-- A raw inbound frame: either undecodable (`json.loads` raises
`JSONDecodeError`) or it decodes to a `JData`. -/
inductive Frame where
  | undecodable
  | decoded (d : JData)
deriving DecidableEq

/-- The normalization `data if isinstance(data, list) else [data]` used by
both `_handle_message` (line 390) and `_authenticate` (line 227). -/
def normalize : JData → List JMsg
  | .single m => [m]
  | .array ms => ms

/-- Observable events of a session: an `_emit` call with its event kind, a
handler invocation, a message sent on the socket, and a backoff sleep. -/
inductive Ev where
  | emitted (k : String)
  | invoked (i : Invocation)
  | sent (m : SubMsg)
  | slept (d : ℚ)
deriving DecidableEq

/-- One `_emit` call as it appears in a session trace: the call marker
followed by the handler invocations it performs. -/
def emitEvs (reg : HandlerReg) (k : String) (p : Nat) : List Ev :=
  .emitted k :: (emit reg k p).map .invoked

/-- The per-message body of the `for msg in messages` loop in
`AlpacaStream._handle_message` (lines 392-403).  A non-object element makes
`msg.get` raise `AttributeError`, which `_handle_message` does not catch
(`Except.error`).  An object is routed by its `T` tag: `"error"` is emitted
to the error handlers, `"subscription"` is consumed silently, a tag with
registered handlers is dispatched, anything else (including a missing tag)
is ignored. -/
def processMsg (reg : HandlerReg) (m : JMsg) : Except Unit (List Ev) :=
  match m with
  | .nondict _ => .error ()
  | .dict T _ pid =>
    match T with
    | some t =>
      if t = "error" then .ok (emitEvs reg "error" pid)
      else if t = "subscription" then .ok []
      else if hasKey reg t then .ok (emitEvs reg t pid)
      else .ok []
    | none => .ok []

/-- The `for msg in messages` loop itself: events accumulate in order; the
first raising element aborts the rest of the loop (`false` = the exception
escaped `_handle_message`). -/
def handleList (reg : HandlerReg) : List JMsg → List Ev × Bool
  | [] => ([], true)
  | m :: rest =>
    match processMsg reg m with
    | .ok evs =>
      let r := handleList reg rest
      (evs ++ r.1, r.2)
    | .error _ => ([], false)

/-- `AlpacaStream._handle_message` (lines 384-406): `json.loads` failures
are caught (`except json.JSONDecodeError`) and the frame is dropped;
anything else runs the message loop, whose exceptions are not caught.
Returns the events produced and whether the call returned normally. -/
def handleMessage (reg : HandlerReg) : Frame → List Ev × Bool
  | .undecodable => ([], true)
  | .decoded d => handleList reg (normalize d)

/-! ## Authentication -/

/-- The result of one `recv()` on the socket: the call either raises
(transport failure, timeout) or yields a frame. -/
inductive RecvOutcome where
  | raised
  | got (f : Frame)
deriving DecidableEq

/-- The `for msg in ...` loop of `AlpacaStream._authenticate`
(lines 227-236): the first element that is a success
(`T == "success" and msg == "authenticated"`) decides `true`, the first
`T == "error"` decides `false`, a non-object element raises, and a reply
with no decisive element yields `false` after the loop. -/
def authCheck : List JMsg → Except Unit Bool
  | [] => .ok false
  | m :: rest =>
    match m with
    | .nondict _ => .error ()
    | .dict T msgField _ =>
      if T = some "success" ∧ msgField = some "authenticated" then .ok true
      else if T = some "error" then .ok false
      else authCheck rest

/-- `AlpacaStream._authenticate` (lines 212-236) given the outcome of the
`recv()` of the auth reply: a raising `recv` or an undecodable reply
propagates an exception (caught later by `connect`); otherwise the reply is
normalized to a list and scanned by `authCheck`. -/
def authenticate (resp : RecvOutcome) : Except Unit Bool :=
  match resp with
  | .raised => .error ()
  | .got .undecodable => .error ()
  | .got (.decoded d) => authCheck (normalize d)

/-! ## Connection, reconnection and the run loop -/

/-- The `StreamConfig` dataclass (lines 38-46); durations are modeled as
rationals (the source values `1.0`, `60.0`, powers of two and their capped
products are all exact in binary floating point). -/
structure StreamConfig where
  auto_reconnect : Bool := true
  reconnect_delay : ℚ := 1
  max_reconnect_delay : ℚ := 60
  reconnect_attempts : Nat := 10
  ping_interval : ℚ := 30
  ping_timeout : ℚ := 10
deriving DecidableEq

/-- The mutable fields of `AlpacaStream` set in `__init__` (lines 106-112);
`ws` is `true` when `self._ws` holds a socket object. -/
structure SessState where
  ws : Bool
  connected : Bool
  authenticated : Bool
  running : Bool
  reconnectCount : Nat
  subs : Subscription
deriving DecidableEq

/-- Scripted behavior of the network during one `connect()` call:
whether `websockets.connect` succeeds, the outcome of the welcome `recv`,
the outcome of the auth-reply `recv`, and whether the `recv` of the
subscribe acknowledgment during `_resubscribe` succeeds. -/
structure ConnScript where
  openOk : Bool
  welcome : RecvOutcome
  authResp : RecvOutcome
  subAckOk : Bool
deriving DecidableEq

/-- `AlpacaStream.connect` (lines 168-210).  The whole body sits in a
`try`/`except Exception` that logs, emits `"error"` and returns `False`, so
the function is total.  On the success path: the connection flag is set, the
welcome frame is read and discarded, `_authenticate` runs, and on success
the reconnect counter resets, `"connected"` is emitted and `_resubscribe`
re-sends the stored subscriptions (the registry was already updated before
the ack `recv`, so a failing ack leaves the state updated but makes
`connect` return `False` through the `except` branch).  Lifecycle payloads
are given payload id `0`. -/
def connect (reg : HandlerReg) (st : SessState) (cs : ConnScript) :
    Bool × SessState × List Ev :=
  if ¬ cs.openOk then
    (false, st, emitEvs reg "error" 0)
  else
    let st₁ := { st with ws := true, connected := true }
    match cs.welcome with
    | .raised => (false, st₁, emitEvs reg "error" 0)
    | .got .undecodable => (false, st₁, emitEvs reg "error" 0)
    | .got (.decoded _) =>
      match authenticate cs.authResp with
      | .error _ => (false, st₁, emitEvs reg "error" 0)
      | .ok false => (false, st₁, [])
      | .ok true =>
        let st₂ := { st₁ with authenticated := true, reconnectCount := 0 }
        let evs := emitEvs reg "connected" 0
        match resubscribe st₂.subs with
        | none => (true, st₂, evs)
        | some (msg, subs₂) =>
          let st₃ := { st₂ with subs := subs₂ }
          if cs.subAckOk then
            (true, st₃, evs ++ [.sent msg])
          else
            (false, st₃, evs ++ [.sent msg] ++ emitEvs reg "error" 0)

/-- The backoff formula of `AlpacaStream._reconnect` (lines 278-281),
evaluated at the incremented attempt counter. -/
def backoffDelay (cfg : StreamConfig) (attempt : Nat) : ℚ :=
  min (cfg.reconnect_delay * 2 ^ (attempt - 1)) cfg.max_reconnect_delay

/-- `AlpacaStream._reconnect` (lines 268-286): refuse when auto-reconnect is
off or the attempt budget is exhausted; otherwise increment the counter,
sleep the capped exponential delay, and delegate to `connect`. -/
def reconnect (cfg : StreamConfig) (reg : HandlerReg) (st : SessState)
    (cs : ConnScript) : Bool × SessState × List Ev :=
  if ¬ cfg.auto_reconnect then
    (false, st, [])
  else if cfg.reconnect_attempts ≤ st.reconnectCount then
    (false, st, [])
  else
    let st₁ := { st with reconnectCount := st.reconnectCount + 1 }
    let d := backoffDelay cfg st₁.reconnectCount
    let r := connect reg st₁ cs
    (r.1, r.2.1, .slept d :: r.2.2)

/-- `AlpacaStream.disconnect` (lines 254-266): stop the loop, close and drop
the socket, clear both flags, then emit `"disconnected"` (the socket close
is modeled as always succeeding). -/
def disconnect (reg : HandlerReg) (st : SessState) : SessState × List Ev :=
  ({ st with running := false, ws := false, connected := false,
             authenticated := false },
   emitEvs reg "disconnected" 0)

/-- The network as seen by `run()`: a script of `recv` outcomes (each paired
with whether `stop()` was called while that `recv` was blocking) and a
script of per-`connect` behaviors.  An exhausted `recv` script behaves as a
raising `recv` (transport closed); an exhausted connect script as a failing
open. -/
structure RunEnv where
  recvs : List (RecvOutcome × Bool)
  conns : List ConnScript
deriving DecidableEq

/-- Default outcome when the `recv` script is exhausted. -/
def popRecv (l : List (RecvOutcome × Bool)) :
    (RecvOutcome × Bool) × List (RecvOutcome × Bool) :=
  match l with
  | [] => ((.raised, false), [])
  | x :: rest => (x, rest)

/-- Default script when the connect script is exhausted. -/
def failScript : ConnScript := ⟨false, .raised, .raised, true⟩

/-- Pop the next connect script. -/
def popConn (l : List ConnScript) : ConnScript × List ConnScript :=
  match l with
  | [] => (failScript, [])
  | x :: rest => (x, rest)

/-- The `while self._running` loop of `AlpacaStream.run` (lines 418-439),
driven by fuel (`none` = the fuel ran out before the loop exited).  Branches
mirror the source: a disconnected state goes through `_reconnect` (break on
failure, `continue` on success); otherwise `recv` runs — a raising `recv`
or an exception escaping `_handle_message` enters the `except` branch,
which breaks if `stop()` was observed, else clears `connected` and either
retries via `_reconnect` (break on failure) or breaks when auto-reconnect
is off.  On every loop exit `disconnect()` runs and its events are
appended. -/
def runLoop (cfg : StreamConfig) (reg : HandlerReg) :
    Nat → SessState → RunEnv → List Ev → Option (SessState × List Ev)
  | 0, _, _, _ => none
  | fuel + 1, st, env, acc =>
    if ¬ st.running then
      some ((disconnect reg st).1, acc ++ (disconnect reg st).2)
    else if ¬ st.connected then
      let r := reconnect cfg reg st (popConn env.conns).1
      if r.1 then
        runLoop cfg reg fuel r.2.1 { env with conns := (popConn env.conns).2 }
          (acc ++ r.2.2)
      else
        some ((disconnect reg r.2.1).1, acc ++ r.2.2 ++ (disconnect reg r.2.1).2)
    else
      let stopD := (popRecv env.recvs).1.2
      let env₁ := { env with recvs := (popRecv env.recvs).2 }
      match (popRecv env.recvs).1.1 with
      | .raised =>
        if stopD then
          some ((disconnect reg { st with running := false }).1,
            acc ++ (disconnect reg { st with running := false }).2)
        else if cfg.auto_reconnect then
          let r := reconnect cfg reg { st with connected := false }
            (popConn env₁.conns).1
          if r.1 then
            runLoop cfg reg fuel r.2.1 { env₁ with conns := (popConn env₁.conns).2 }
              (acc ++ r.2.2)
          else
            some ((disconnect reg r.2.1).1, acc ++ r.2.2 ++ (disconnect reg r.2.1).2)
        else
          some ((disconnect reg { st with connected := false }).1,
            acc ++ (disconnect reg { st with connected := false }).2)
      | .got f =>
        let hm := handleMessage reg f
        if hm.2 then
          runLoop cfg reg fuel
            { st with running := st.running && !stopD } env₁ (acc ++ hm.1)
        else if stopD then
          some ((disconnect reg { st with running := false }).1,
            acc ++ hm.1 ++ (disconnect reg { st with running := false }).2)
        else if cfg.auto_reconnect then
          let r := reconnect cfg reg { st with connected := false }
            (popConn env₁.conns).1
          if r.1 then
            runLoop cfg reg fuel r.2.1 { env₁ with conns := (popConn env₁.conns).2 }
              (acc ++ hm.1 ++ r.2.2)
          else
            some ((disconnect reg r.2.1).1,
              acc ++ hm.1 ++ r.2.2 ++ (disconnect reg r.2.1).2)
        else
          some ((disconnect reg { st with connected := false }).1,
            acc ++ hm.1 ++ (disconnect reg { st with connected := false }).2)

/-- `AlpacaStream.run` (lines 410-441): set `self._running = True`, then
enter the loop. -/
def run (cfg : StreamConfig) (reg : HandlerReg) (fuel : Nat) (st : SessState)
    (env : RunEnv) : Option (SessState × List Ev) :=
  runLoop cfg reg fuel { st with running := true } env []

/-! ## Session-level subscribe and unsubscribe -/

/-- The full `AlpacaStream.subscribe` method as called on a session: the
message is built and the registry updated first, then `self._ws.send` runs
— which raises `AttributeError` when `self._ws` is `None` — and the ack
`recv`/`json.loads` follows (`ackOk` scripts its outcome).  The method never
consults `self._authenticated`.  Result: `some msg` when the call returned
the sent message, `none` when an exception propagated; the state update is
kept in either case because it happens before the send. -/
def sessionSubscribe (st : SessState)
    (trades quotes bars daily_bars statuses lulds : List String)
    (ackOk : Bool) : Option SubMsg × SessState :=
  let r := subscribe trades quotes bars daily_bars statuses lulds st.subs
  let st₁ := { st with subs := r.2 }
  if st.ws && ackOk then (some r.1, st₁) else (none, st₁)

/-- The full `AlpacaStream.unsubscribe` method as called on a session,
mirroring `sessionSubscribe`. -/
def sessionUnsubscribe (st : SessState)
    (trades quotes bars daily_bars : List String)
    (ackOk : Bool) : Option SubMsg × SessState :=
  let r := unsubscribe trades quotes bars daily_bars st.subs
  let st₁ := { st with subs := r.2 }
  if st.ws && ackOk then (some r.1, st₁) else (none, st₁)

/-! ## Trace observations -/

/-- Number of `_emit` calls with the `"disconnected"` lifecycle kind in a
trace. -/
def countDisc : List Ev → Nat
  | [] => 0
  | .emitted k :: rest => (if k = "disconnected" then 1 else 0) + countDisc rest
  | .invoked _ :: rest => countDisc rest
  | .sent _ :: rest => countDisc rest
  | .slept _ :: rest => countDisc rest

/-- The backoff sleeps occurring in a trace, in order. -/
def sleptOf : List Ev → List ℚ
  | [] => []
  | .slept d :: rest => d :: sleptOf rest
  | .emitted _ :: rest => sleptOf rest
  | .invoked _ :: rest => sleptOf rest
  | .sent _ :: rest => sleptOf rest

/-- Simulation of `k` consecutive reconnect attempts that all fail at the
transport open, collecting the produced events. -/
def simFailures (cfg : StreamConfig) (reg : HandlerReg) :
    Nat → SessState → List Ev
  | 0, _ => []
  | k + 1, st =>
    let r := reconnect cfg reg st failScript
    r.2.2 ++ simFailures cfg reg k r.2.1

/-- An inbound message whose tag is not the `"disconnected"` lifecycle
pseudo-kind (the wire protocol never uses that tag; a frame carrying it
would be dispatched to disconnect handlers like any registered kind). -/
def benignMsg : JMsg → Bool
  | .dict (some t) _ _ => t != "disconnected"
  | _ => true

/-- A frame none of whose messages carries the `"disconnected"` tag. -/
def benignFrame : Frame → Bool
  | .undecodable => true
  | .decoded d => (normalize d).all benignMsg

/-- An environment whose scripted `recv` outcomes only deliver benign
frames. -/
def benignEnv (env : RunEnv) : Bool :=
  env.recvs.all fun rb =>
    match rb.1 with
    | .raised => true
    | .got f => benignFrame f

/-- Whether a decoded JSON value is an object. -/
def isDict : JMsg → Bool
  | .dict _ _ _ => true
  | .nondict _ => false

/-- Modelled from the spec: the first authentication success or error found
in a batched auth reply decides the outcome (`none` when no element is
decisive).  Stated from the spec sentence for comparison with `authCheck`. -/
def firstAuthDecision : List JMsg → Option Bool
  | [] => none
  | .dict T msgField _ :: rest =>
    if T = some "success" ∧ msgField = some "authenticated" then some true
    else if T = some "error" then some false
    else firstAuthDecision rest
  | .nondict _ :: rest => firstAuthDecision rest

/-! ## Helper lemmas -/

theorem emitLoop_eq_map (p : Nat) (hs : List Handler) :
    emitLoop p hs = hs.map (fun h => invoke h p) := by
  induction hs with
  | nil => rfl
  | cons h rest ih => simp [emitLoop, ih]

theorem emitLoop_append (p : Nat) (l₁ l₂ : List Handler) :
    emitLoop p (l₁ ++ l₂) = emitLoop p l₁ ++ emitLoop p l₂ := by
  induction l₁ with
  | nil => rfl
  | cons h rest ih => simp [emitLoop, ih]

theorem unsubscribe_fixes_statuses (t q b d : List String) (s : Subscription) :
    (unsubscribe t q b d s).2.statuses = s.statuses := rfl

theorem unsubscribe_fixes_lulds (t q b d : List String) (s : Subscription) :
    (unsubscribe t q b d s).2.lulds = s.lulds := rfl

theorem lookupHandlers_of_not_hasKey (reg : HandlerReg) (k : String)
    (h : hasKey reg k = false) : lookupHandlers reg k = [] := by
  induction reg with
  | nil => rfl
  | cons p rest ih =>
    obtain ⟨k₀, hs⟩ := p
    simp only [hasKey, Bool.or_eq_false_iff, decide_eq_false_iff_not] at h
    simp [lookupHandlers, h.1, ih h.2]

theorem lookupHandlers_append_self (reg : HandlerReg) (k : String)
    (hs : List Handler) (h : hasKey reg k = false) :
    lookupHandlers (reg ++ [(k, hs)]) k = hs := by
  induction reg with
  | nil => simp [lookupHandlers]
  | cons p rest ih =>
    obtain ⟨k₀, hs₀⟩ := p
    simp only [hasKey, Bool.or_eq_false_iff, decide_eq_false_iff_not] at h
    simp [lookupHandlers, h.1, ih h.2]

theorem lookupHandlers_map_update (reg : HandlerReg) (k : String) (h : Handler)
    (hk : hasKey reg k = true) :
    lookupHandlers (reg.map fun p => (p.1, if p.1 = k then p.2 ++ [h] else p.2)) k
      = lookupHandlers reg k ++ [h] := by
  induction reg with
  | nil => simp [hasKey] at hk
  | cons p rest ih =>
    obtain ⟨k₀, hs₀⟩ := p
    by_cases hkk : k₀ = k
    · subst hkk
      simp [lookupHandlers]
    · simp only [hasKey, Bool.or_eq_true, decide_eq_true_eq] at hk
      rcases hk with hk | hk
      · exact absurd hk hkk
      · simp [lookupHandlers, hkk, ih hk]

theorem hasKey_map_update (reg : HandlerReg) (k k₁ : String) (h : Handler) :
    hasKey (reg.map fun p => (p.1, if p.1 = k then p.2 ++ [h] else p.2)) k₁
      = hasKey reg k₁ := by
  induction reg with
  | nil => rfl
  | cons p rest ih => simp [hasKey, ih]

theorem hasKey_append_self (reg : HandlerReg) (k : String) (hs : List Handler) :
    hasKey (reg ++ [(k, hs)]) k = true := by
  induction reg with
  | nil => simp [hasKey]
  | cons p rest ih => simp [hasKey, ih]

theorem lookupHandlers_addHandler (reg : HandlerReg) (k : String) (h : Handler) :
    lookupHandlers (addHandler reg k h) k = lookupHandlers reg k ++ [h] := by
  unfold addHandler
  by_cases hk : hasKey reg k = true
  · simp only [hk, if_true]
    exact lookupHandlers_map_update reg k h hk
  · simp only [hk, Bool.false_eq_true, if_false]
    rw [lookupHandlers_of_not_hasKey reg k (by simpa using hk)]
    exact lookupHandlers_append_self reg k [h] (by simpa using hk)

theorem hasKey_addHandler (reg : HandlerReg) (k : String) (h : Handler) :
    hasKey (addHandler reg k h) k = true := by
  unfold addHandler
  by_cases hk : hasKey reg k = true
  · simp only [hk, if_true]
    rw [hasKey_map_update]
    exact hk
  · simp only [hk, Bool.false_eq_true, if_false]
    exact hasKey_append_self reg k [h]

theorem countDisc_append (l₁ l₂ : List Ev) :
    countDisc (l₁ ++ l₂) = countDisc l₁ + countDisc l₂ := by
  induction l₁ with
  | nil => simp [countDisc]
  | cons e rest ih =>
    cases e <;> simp [countDisc, ih, Nat.add_assoc]

theorem countDisc_map_invoked (l : List Invocation) :
    countDisc (l.map Ev.invoked) = 0 := by
  induction l with
  | nil => rfl
  | cons i rest ih => simp [countDisc, ih]

theorem countDisc_emitEvs_ne (reg : HandlerReg) (k : String) (p : Nat)
    (h : k ≠ "disconnected") : countDisc (emitEvs reg k p) = 0 := by
  simp [emitEvs, countDisc, h, countDisc_map_invoked]

theorem countDisc_disconnect (reg : HandlerReg) (st : SessState) :
    countDisc (disconnect reg st).2 = 1 := by
  simp [disconnect, emitEvs, countDisc, countDisc_map_invoked]

theorem countDisc_connect (reg : HandlerReg) (st : SessState) (cs : ConnScript) :
    countDisc (connect reg st cs).2.2 = 0 := by
  unfold connect
  by_cases ho : cs.openOk
  · simp only [ho, not_true, if_neg, ite_false]
    cases hw : cs.welcome with
    | raised => simp [countDisc_emitEvs_ne]
    | got f =>
      cases f with
      | undecodable => simp [countDisc_emitEvs_ne]
      | decoded dw =>
        cases ha : authenticate cs.authResp with
        | error e => simp [countDisc_emitEvs_ne]
        | ok b =>
          cases b with
          | false => simp [countDisc]
          | true =>
            cases hr : resubscribe st.subs with
            | none => simp [hr, countDisc_emitEvs_ne]
            | some pr =>
              by_cases hk : cs.subAckOk <;>
                simp [hr, hk, countDisc_append, countDisc_emitEvs_ne, countDisc,
                  emitEvs, countDisc_map_invoked]
  · simp [ho, countDisc_emitEvs_ne]

theorem countDisc_reconnect (cfg : StreamConfig) (reg : HandlerReg)
    (st : SessState) (cs : ConnScript) :
    countDisc (reconnect cfg reg st cs).2.2 = 0 := by
  unfold reconnect
  by_cases ha : cfg.auto_reconnect
  · by_cases hc : cfg.reconnect_attempts ≤ st.reconnectCount
    · simp [ha, hc, countDisc]
    · simp [ha, hc, countDisc, countDisc_connect]
  · simp [ha, countDisc]

theorem processMsg_countDisc (reg : HandlerReg) (m : JMsg) (evs : List Ev)
    (hm : benignMsg m = true) (h : processMsg reg m = .ok evs) :
    countDisc evs = 0 := by
  cases m with
  | nondict pid => simp [processMsg] at h
  | dict T mf pid =>
    cases T with
    | none =>
      obtain rfl := Except.ok.inj h
      rfl
    | some t =>
      have hm₁ : t ≠ "disconnected" := by simpa [benignMsg] using hm
      by_cases he : t = "error"
      · subst he
        obtain rfl := Except.ok.inj h
        exact countDisc_emitEvs_ne _ _ _ (by decide)
      · by_cases hsub : t = "subscription"
        · subst hsub
          obtain rfl := Except.ok.inj h
          rfl
        · simp only [processMsg] at h
          rw [if_neg he, if_neg hsub] at h
          by_cases hk : hasKey reg t = true
          · rw [if_pos hk] at h
            obtain rfl := Except.ok.inj h
            exact countDisc_emitEvs_ne _ _ _ hm₁
          · rw [if_neg hk] at h
            obtain rfl := Except.ok.inj h
            rfl

theorem handleList_countDisc (reg : HandlerReg) (ms : List JMsg)
    (hm : ms.all benignMsg = true) : countDisc (handleList reg ms).1 = 0 := by
  induction ms with
  | nil => rfl
  | cons m rest ih =>
    simp only [List.all_cons, Bool.and_eq_true] at hm
    cases hp : processMsg reg m with
    | ok evs =>
      simp only [handleList, hp, countDisc_append]
      rw [processMsg_countDisc reg m evs hm.1 hp, ih hm.2]
    | error e => simp [handleList, hp, countDisc]

theorem handleMessage_countDisc (reg : HandlerReg) (f : Frame)
    (hf : benignFrame f = true) : countDisc (handleMessage reg f).1 = 0 := by
  cases f with
  | undecodable => rfl
  | decoded d =>
    simp only [benignFrame] at hf
    exact handleList_countDisc reg (normalize d) hf

theorem runLoop_disc_once (cfg : StreamConfig) (reg : HandlerReg) :
    ∀ (fuel : Nat) (st : SessState) (env : RunEnv) (acc : List Ev)
      (out : SessState × List Ev),
      benignEnv env = true →
      runLoop cfg reg fuel st env acc = some out →
      countDisc out.2 = countDisc acc + 1 ∧ out.1.running = false
        ∧ out.1.connected = false := by
  intro fuel
  induction fuel with
  | zero =>
    intro st env acc out hb h
    simp [runLoop] at h
  | succ fuel ih =>
    intro st env acc out hb h
    obtain ⟨recvs, conns⟩ := env
    simp only [runLoop] at h
    by_cases hrun : st.running = true
    swap
    · rw [if_pos (by simpa using hrun)] at h
      obtain rfl := Option.some.inj h
      exact ⟨by simp [countDisc_append, countDisc_disconnect], rfl, rfl⟩
    · rw [if_neg (not_not_intro hrun)] at h
      by_cases hconn : st.connected = true
      swap
      · rw [if_pos (by simpa using hconn)] at h
        by_cases hok : (reconnect cfg reg st (popConn conns).1).1 = true
        · rw [if_pos hok] at h
          have hr := ih _ _ _ _ (by exact hb) h
          refine ⟨?_, hr.2.1, hr.2.2⟩
          rw [hr.1, countDisc_append, countDisc_reconnect]
        · rw [if_neg hok] at h
          obtain rfl := Option.some.inj h
          exact ⟨by simp [countDisc_append, countDisc_disconnect,
            countDisc_reconnect], rfl, rfl⟩
      · rw [if_neg (not_not_intro hconn)] at h
        cases recvs with
        | nil =>
          simp only [popRecv] at h
          rw [if_neg (by simp)] at h
          by_cases hauto : cfg.auto_reconnect = true
          · rw [if_pos hauto] at h
            by_cases hok :
              (reconnect cfg reg { st with connected := false }
                (popConn conns).1).1 = true
            · rw [if_pos hok] at h
              have hr := ih _ _ _ _ (by simp [benignEnv]) h
              refine ⟨?_, hr.2.1, hr.2.2⟩
              rw [hr.1, countDisc_append, countDisc_reconnect]
            · rw [if_neg hok] at h
              obtain rfl := Option.some.inj h
              exact ⟨by simp [countDisc_append, countDisc_disconnect,
                countDisc_reconnect], rfl, rfl⟩
          · rw [if_neg hauto] at h
            obtain rfl := Option.some.inj h
            exact ⟨by simp [countDisc_append, countDisc_disconnect], rfl, rfl⟩
        | cons hd tl =>
          obtain ⟨rv, sD⟩ := hd
          simp only [benignEnv, List.all_cons, Bool.and_eq_true] at hb
          obtain ⟨hbhd, hbtl⟩ := hb
          simp only [popRecv] at h
          cases rv with
          | raised =>
            dsimp only at h
            by_cases hsD : sD = true
            · rw [if_pos hsD] at h
              obtain rfl := Option.some.inj h
              exact ⟨by simp [countDisc_append, countDisc_disconnect], rfl, rfl⟩
            · rw [if_neg hsD] at h
              by_cases hauto : cfg.auto_reconnect = true
              · rw [if_pos hauto] at h
                by_cases hok :
                  (reconnect cfg reg { st with connected := false }
                    (popConn conns).1).1 = true
                · rw [if_pos hok] at h
                  have hr := ih _ _ _ _ (by simpa [benignEnv] using hbtl) h
                  refine ⟨?_, hr.2.1, hr.2.2⟩
                  rw [hr.1, countDisc_append, countDisc_reconnect]
                · rw [if_neg hok] at h
                  obtain rfl := Option.some.inj h
                  exact ⟨by simp [countDisc_append, countDisc_disconnect,
                    countDisc_reconnect], rfl, rfl⟩
              · rw [if_neg hauto] at h
                obtain rfl := Option.some.inj h
                exact ⟨by simp [countDisc_append, countDisc_disconnect], rfl, rfl⟩
          | got f =>
            dsimp only at h
            have hbf : benignFrame f = true := hbhd
            have hz : countDisc (handleMessage reg f).1 = 0 :=
              handleMessage_countDisc reg f hbf
            by_cases hok : (handleMessage reg f).2 = true
            · rw [if_pos hok] at h
              have hr := ih _ _ _ _ (by simpa [benignEnv] using hbtl) h
              refine ⟨?_, hr.2.1, hr.2.2⟩
              rw [hr.1, countDisc_append, hz]
            · rw [if_neg hok] at h
              by_cases hsD : sD = true
              · rw [if_pos hsD] at h
                obtain rfl := Option.some.inj h
                exact ⟨by simp [countDisc_append, countDisc_disconnect, hz],
                  rfl, rfl⟩
              · rw [if_neg hsD] at h
                by_cases hauto : cfg.auto_reconnect = true
                · rw [if_pos hauto] at h
                  by_cases hok₂ :
                    (reconnect cfg reg { st with connected := false }
                      (popConn conns).1).1 = true
                  · rw [if_pos hok₂] at h
                    have hr := ih _ _ _ _ (by simpa [benignEnv] using hbtl) h
                    refine ⟨?_, hr.2.1, hr.2.2⟩
                    rw [hr.1, countDisc_append, countDisc_append, hz,
                      countDisc_reconnect]
                  · rw [if_neg hok₂] at h
                    obtain rfl := Option.some.inj h
                    exact ⟨by simp [countDisc_append, countDisc_disconnect,
                      countDisc_reconnect, hz], rfl, rfl⟩
                · rw [if_neg hauto] at h
                  obtain rfl := Option.some.inj h
                  exact ⟨by simp [countDisc_append, countDisc_disconnect, hz],
                    rfl, rfl⟩

/-! ## Claims -/

/-- Claim C1.  The spec demands that after a successful reconnect the single
combined resubscription message contain exactly the union of all symbols in
the registry snapshot for every one of the six channels.  The code drops
the `statuses` and `lulds` channels: with trades `{MMM}` and lulds `{AAPL}`
in the registry, the resubscription message carries no `lulds` (and no
`statuses`) key, and with only statuses `{AAPL}` populated no resubscription
happens at all. -/
theorem C1_resubscribe_drops_statuses_lulds :
    ((resubscribe (subscribe ["MMM"] [] [] [] [] ["aapl"] Subscription.init).2).map
        fun r => (r.1.lulds, r.1.statuses)) = some (none, none)
    ∧ (subscribe ["MMM"] [] [] [] [] ["aapl"] Subscription.init).2.lulds = {"AAPL"}
    ∧ resubscribe (subscribe [] [] [] [] ["AAPL"] [] Subscription.init).2 = none
    ∧ (subscribe [] [] [] [] ["AAPL"] [] Subscription.init).2.statuses = {"AAPL"} := by
  refine ⟨?_, ?_, ?_, ?_⟩ <;> decide

/-- Claim C3, counterexample.  A session that holds a socket but is not
authenticated: `subscribe` (and `unsubscribe`) succeed and send instead of
failing — no authentication check exists in the code. -/
theorem C3_counterexample :
    (sessionSubscribe ⟨true, true, false, true, 0, Subscription.init⟩
        ["AAPL"] [] [] [] [] [] true).1.isSome = true
    ∧ (sessionUnsubscribe ⟨true, true, false, true, 0, Subscription.init⟩
        ["AAPL"] [] [] [] true).1.isSome = true
    ∧ (⟨true, true, false, true, 0, Subscription.init⟩ : SessState).authenticated
        = false := by
  refine ⟨?_, ?_, ?_⟩ <;> decide

/-- Claim C3, amended.  `subscribe` and `unsubscribe` perform no
authentication check at all: whether they raise depends only on the
presence of a socket object and the fate of the acknowledgment read, never
on the `authenticated` flag (when `self._ws` is `None` the failure is an
`AttributeError` from the send, not a `TransportError`). -/
theorem C3_no_auth_check (st : SessState)
    (t q b d s l : List String) (ack : Bool) :
    (sessionSubscribe st t q b d s l ack).1.isSome = (st.ws && ack)
    ∧ (sessionUnsubscribe st t q b d ack).1.isSome = (st.ws && ack) := by
  constructor
  · unfold sessionSubscribe
    cases hw : st.ws <;> cases ha : ack <;> simp [hw, ha]
  · unfold sessionUnsubscribe
    cases hw : st.ws <;> cases ha : ack <;> simp [hw, ha]

/-- Claim C6, counterexample.  With `{AAPL}` in the `statuses` channel, no
invocation of `unsubscribe` removes it: the method signature has no
`statuses` (or `lulds`) parameter, so the six-channel claim fails for the
statuses channel. -/
theorem C6_counterexample :
    ¬ ∃ t q b d : List String,
      "AAPL" ∉ (unsubscribe t q b d
        (subscribe [] [] [] [] ["AAPL"] [] Subscription.init).2).2.statuses := by
  rintro ⟨t, q, b, d, h⟩
  rw [unsubscribe_fixes_statuses] at h
  exact h (by decide)

/-- Claim C6, amended.  For the four channels `unsubscribe` supports
(trades, quotes, bars, daily-bars) it removes exactly the uppercased
specified symbols from that channel's set — expressed as a set difference,
so unmentioned symbols stay — and every other channel's set is unchanged;
the `statuses` and `lulds` channels cannot be unsubscribed at all. -/
theorem C6_unsubscribe_exact (t q b d : List String) (s : Subscription) :
    (unsubscribe t q b d s).2.trades = s.trades \ (upperList t).toFinset
    ∧ (unsubscribe t q b d s).2.quotes = s.quotes \ (upperList q).toFinset
    ∧ (unsubscribe t q b d s).2.bars = s.bars \ (upperList b).toFinset
    ∧ (unsubscribe t q b d s).2.daily_bars = s.daily_bars \ (upperList d).toFinset
    ∧ (unsubscribe t q b d s).2.statuses = s.statuses
    ∧ (unsubscribe t q b d s).2.lulds = s.lulds := by
  refine ⟨?_, ?_, ?_, ?_, rfl, rfl⟩
  · by_cases h : t = [] <;> simp [unsubscribe, h, upperList]
  · by_cases h : q = [] <;> simp [unsubscribe, h, upperList]
  · by_cases h : b = [] <;> simp [unsubscribe, h, upperList]
  · by_cases h : d = [] <;> simp [unsubscribe, h, upperList]

/-- Claim C8.  A bare inbound object and the one-element array holding the
same object are normalized to the same message list, so `_handle_message`
produces identical dispatch behavior (the same events in the same order and
the same exception outcome) for both. -/
theorem C8_single_eq_singleton_array (reg : HandlerReg) (m : JMsg) :
    handleMessage reg (.decoded (.single m))
      = handleMessage reg (.decoded (.array [m])) := rfl

/-- Claim C10.  Registration never deduplicates: the decorator returns the
original function, adding the same handler twice for the same kind appends
it twice, and dispatching that kind invokes it twice in registration order;
a message tagged with that kind is routed to exactly that dispatch. -/
theorem C10_register_no_dedup (reg : HandlerReg) (k : String) (h : Handler)
    (p : Nat) (mf : Option String) :
    (onRegister reg k h).2 = h
    ∧ lookupHandlers (addHandler (addHandler reg k h) k h) k
        = lookupHandlers reg k ++ [h, h]
    ∧ emit (addHandler (addHandler reg k h) k h) k p
        = emit reg k p ++ [invoke h p, invoke h p]
    ∧ (k ≠ "error" → k ≠ "subscription" →
        processMsg (addHandler (addHandler reg k h) k h) (.dict (some k) mf p)
          = .ok (emitEvs (addHandler (addHandler reg k h) k h) k p)) := by
  refine ⟨rfl, ?_, ?_, ?_⟩
  · rw [lookupHandlers_addHandler, lookupHandlers_addHandler]
    simp
  · unfold emit
    rw [lookupHandlers_addHandler, lookupHandlers_addHandler, emitLoop_append,
      emitLoop_append]
    simp [emitLoop]
  · intro h1 h2
    simp [processMsg, h1, h2, hasKey_addHandler]

/-- Claim C10, witness: two registrations of handler 5 for kind `"t"` make
it appear twice and fire twice on a `"t"`-tagged message. -/
theorem C10_register_no_dedup_witness :
    processMsg (addHandler (addHandler [] "t" ⟨5, false⟩) "t" ⟨5, false⟩)
        (.dict (some "t") none 3)
      = .ok (emitEvs (addHandler (addHandler [] "t" ⟨5, false⟩) "t" ⟨5, false⟩)
          "t" 3) :=
  (C10_register_no_dedup [] "t" ⟨5, false⟩ 3 none).2.2.2 (by decide) (by decide)

/-- Claim C4.  Handler failures are isolated: `_emit` invokes every
registered handler in order no matter which of them throw; a throwing
handler in the middle of the list does not stop the ones after it; and two
consecutive data messages in one frame are both dispatched in full with the
loop reporting normal completion, independent of any throw flags in the
registry. -/
theorem C4_handler_isolation :
    (∀ (reg : HandlerReg) (k : String) (p : Nat),
        emit reg k p = (lookupHandlers reg k).map fun h => invoke h p)
    ∧ (∀ (p : Nat) (hs₁ : List Handler) (h : Handler) (hs₂ : List Handler),
        h.throws = true →
        emitLoop p (hs₁ ++ h :: hs₂)
          = emitLoop p hs₁ ++ invoke h p :: emitLoop p hs₂)
    ∧ (∀ (reg : HandlerReg) (t₁ t₂ : String) (mf₁ mf₂ : Option String)
        (p₁ p₂ : Nat),
        t₁ ≠ "error" → t₁ ≠ "subscription" → hasKey reg t₁ = true →
        t₂ ≠ "error" → t₂ ≠ "subscription" → hasKey reg t₂ = true →
        handleMessage reg
            (.decoded (.array [.dict (some t₁) mf₁ p₁, .dict (some t₂) mf₂ p₂]))
          = (emitEvs reg t₁ p₁ ++ emitEvs reg t₂ p₂, true)) := by
  refine ⟨?_, ?_, ?_⟩
  · intro reg k p
    exact emitLoop_eq_map p (lookupHandlers reg k)
  · intro p hs₁ h hs₂ _
    rw [emitLoop_append]
    rfl
  · intro reg t₁ t₂ mf₁ mf₂ p₁ p₂ h1 h2 h3 h4 h5 h6
    simp [handleMessage, normalize, handleList, processMsg, h1, h2, h3, h4, h5, h6]

/-- Claim C4, witness: kind `"t"` has a throwing handler followed by a
normal one, kind `"q"` a third handler; a frame carrying a `"t"` message
then a `"q"` message dispatches all three in order and the loop finishes
normally. -/
theorem C4_handler_isolation_witness :
    handleMessage [("t", [⟨1, true⟩, ⟨2, false⟩]), ("q", [⟨3, false⟩])]
        (.decoded (.array [.dict (some "t") none 7, .dict (some "q") none 8]))
      = (emitEvs [("t", [⟨1, true⟩, ⟨2, false⟩]), ("q", [⟨3, false⟩])] "t" 7
          ++ emitEvs [("t", [⟨1, true⟩, ⟨2, false⟩]), ("q", [⟨3, false⟩])] "q" 8,
         true) :=
  C4_handler_isolation.2.2 [("t", [⟨1, true⟩, ⟨2, false⟩]), ("q", [⟨3, false⟩])]
    "t" "q" none none 7 8 (by decide) (by decide) (by decide) (by decide)
    (by decide) (by decide)

/-- Claim C2.  Before the n-th reconnect attempt (1 ≤ n ≤ the configured
attempt budget) the loop sleeps exactly
min(base · 2^(n-1), max_delay), which never exceeds max_delay; and with the
default configuration (base 1s, max 60s) seven consecutive failures sleep
1, 2, 4, 8, 16, 32 and 60 seconds. -/
theorem C2_backoff_delay :
    (∀ (cfg : StreamConfig) (reg : HandlerReg) (st : SessState)
        (cs : ConnScript) (n : Nat),
        cfg.auto_reconnect = true → 1 ≤ n → n ≤ cfg.reconnect_attempts →
        st.reconnectCount = n - 1 →
        (reconnect cfg reg st cs).2.2.head?
            = some (.slept (min (cfg.reconnect_delay * 2 ^ (n - 1))
                cfg.max_reconnect_delay))
          ∧ backoffDelay cfg n ≤ cfg.max_reconnect_delay)
    ∧ sleptOf (simFailures {} [] 7 ⟨false, false, false, true, 0, Subscription.init⟩)
        = [1, 2, 4, 8, 16, 32, 60] := by
  constructor
  · intro cfg reg st cs n hauto h1 hn hcount
    constructor
    · unfold reconnect
      rw [if_neg (by simp [hauto])]
      rw [if_neg (by omega)]
      simp [backoffDelay, hcount]
    · exact min_le_right _ _
  · norm_num [simFailures, reconnect, connect, failScript, backoffDelay,
      sleptOf, emitEvs, emit, emitLoop, lookupHandlers, min_def]

/-- Claim C2, witness: the seventh attempt with the default configuration
sleeps min(1 · 2^6, 60) = 60 seconds. -/
theorem C2_backoff_delay_witness :
    (reconnect {} [] ⟨false, false, false, true, 6, Subscription.init⟩
          failScript).2.2.head?
        = some (.slept (min ((({} : StreamConfig).reconnect_delay * 2 ^ (7 - 1)))
            ({} : StreamConfig).max_reconnect_delay))
      ∧ backoffDelay {} 7 ≤ ({} : StreamConfig).max_reconnect_delay :=
  C2_backoff_delay.1 {} [] ⟨false, false, false, true, 6, Subscription.init⟩
    failScript 7 (by decide) (by decide) (by decide) (by decide)

/-- Claim C9.  `connect` returns `False` instead of raising when the
transport open fails, when the welcome or auth read raises (timeout), and
on an explicit auth rejection; and on a batched auth reply of objects the
scan returns exactly the first success-or-error decision found (defaulting
to failure when no element is decisive). -/
theorem C9_connect_failure_modes :
    (∀ (reg : HandlerReg) (st : SessState) (w a : RecvOutcome) (s : Bool),
        (connect reg st ⟨false, w, a, s⟩).1 = false)
    ∧ (∀ (reg : HandlerReg) (st : SessState) (a : RecvOutcome) (s : Bool),
        (connect reg st ⟨true, .raised, a, s⟩).1 = false)
    ∧ (∀ (reg : HandlerReg) (st : SessState) (dw : JData) (s : Bool),
        (connect reg st ⟨true, .got (.decoded dw), .raised, s⟩).1 = false)
    ∧ (∀ (reg : HandlerReg) (st : SessState) (dw da : JData) (s : Bool),
        authCheck (normalize da) = .ok false →
        (connect reg st ⟨true, .got (.decoded dw), .got (.decoded da), s⟩).1
          = false)
    ∧ (∀ ms : List JMsg, (∀ m ∈ ms, isDict m = true) →
        authCheck ms = .ok ((firstAuthDecision ms).getD false)) := by
  refine ⟨?_, ?_, ?_, ?_, ?_⟩
  · intro reg st w a s
    simp [connect]
  · intro reg st a s
    simp [connect]
  · intro reg st dw s
    simp [connect, authenticate]
  · intro reg st dw da s hrej
    simp [connect, authenticate, hrej]
  · intro ms hms
    induction ms with
    | nil => rfl
    | cons m rest ih =>
      cases m with
      | nondict pid =>
        exact absurd (hms _ (List.mem_cons_self _ _)) (by simp [isDict])
      | dict T mf pid =>
        by_cases hs : T = some "success" ∧ mf = some "authenticated"
        · simp [authCheck, firstAuthDecision, hs]
        · by_cases he : T = some "error"
          · simp [authCheck, firstAuthDecision, hs, he]
          · simp only [authCheck, firstAuthDecision, if_neg hs, if_neg he]
            exact ih fun m hm => hms m (List.mem_cons_of_mem _ hm)

/-- Claim C9, witness: an auth reply batched as an undecisive object
followed by an error object is rejected, and `connect` returns failure on
it. -/
theorem C9_connect_failure_modes_witness :
    (connect [] ⟨false, false, false, false, 0, Subscription.init⟩
        ⟨true, .got (.decoded (.single (.dict (some "w") none 9))),
         .got (.decoded (.array [.dict (some "x") none 0,
           .dict (some "error") (some "denied") 1])), true⟩).1 = false
    ∧ authCheck [.dict (some "x") none 0, .dict (some "error") (some "denied") 1]
        = .ok ((firstAuthDecision
            [.dict (some "x") none 0,
             .dict (some "error") (some "denied") 1]).getD false) :=
  ⟨C9_connect_failure_modes.2.2.2.1 [] ⟨false, false, false, false, 0, Subscription.init⟩
      (.single (.dict (some "w") none 9))
      (.array [.dict (some "x") none 0, .dict (some "error") (some "denied") 1])
      true (by rfl),
   C9_connect_failure_modes.2.2.2.2
      [.dict (some "x") none 0, .dict (some "error") (some "denied") 1]
      (by decide)⟩

/-- Claim C5, counterexample.  A frame that decodes to a JSON value that is
not an object (for example the bare number `1`) is malformed, yet
`_handle_message` does not drop it: the `AttributeError` from `.get`
escapes (`false` below), and in the run loop (auto-reconnect off here) the
escape takes the failure path and terminates the loop instead of letting it
continue. -/
theorem C5_counterexample :
    handleMessage [] (.decoded (.single (.nondict 0))) = ([], false)
    ∧ runLoop { auto_reconnect := false } [] 5
        ⟨true, true, true, true, 0, Subscription.init⟩
        ⟨[(.got (.decoded (.single (.nondict 0))), false)], []⟩ []
        = some (⟨false, false, false, false, 0, Subscription.init⟩,
            [.emitted "disconnected"]) := by
  exact ⟨rfl, by decide⟩

/-- Claim C5, amended.  Only frames that fail JSON decoding are logged and
dropped with the loop continuing unchanged (no state change, no event, no
reconnect script consumed); a frame that decodes to non-object content
instead raises out of `_handle_message` and is treated as a transport
failure (reconnect or loop exit). -/
theorem C5_undecodable_dropped (cfg : StreamConfig) (reg : HandlerReg)
    (fuel : Nat) (st : SessState) (rs : List (RecvOutcome × Bool))
    (conns : List ConnScript) (acc : List Ev)
    (hrun : st.running = true) (hconn : st.connected = true) :
    handleMessage reg Frame.undecodable = ([], true)
    ∧ runLoop cfg reg (fuel + 1) st ⟨(.got .undecodable, false) :: rs, conns⟩ acc
        = runLoop cfg reg fuel st ⟨rs, conns⟩ acc := by
  refine ⟨rfl, ?_⟩
  conv_lhs => rw [runLoop]
  rw [if_neg (not_not_intro hrun), if_neg (not_not_intro hconn)]
  simp only [popRecv]
  dsimp only [handleMessage]
  rw [if_pos rfl]
  simp only [hrun, Bool.not_false, Bool.and_true, List.append_nil]
  have hst : ({ st with running := true } : SessState) = st := by rw [← hrun]
  rw [hst]

/-- Claim C5, witness for the amended theorem: one undecodable frame in
front of the script is skipped without any other effect on the loop. -/
theorem C5_undecodable_dropped_witness :
    handleMessage [] Frame.undecodable = ([], true)
    ∧ runLoop {} [] 3 ⟨true, true, true, true, 0, Subscription.init⟩
        ⟨[(.got .undecodable, false), (.raised, true)], []⟩ []
        = runLoop {} [] 2 ⟨true, true, true, true, 0, Subscription.init⟩
            ⟨[(.raised, true)], []⟩ [] :=
  C5_undecodable_dropped {} [] 2 ⟨true, true, true, true, 0, Subscription.init⟩
    [(.raised, true)] [] [] (by decide) (by decide)

/-- Claim C7.  Whenever `run()` terminates — stop request, reconnection
disabled, or reconnect attempts exhausted — it goes through `disconnect()`,
and the `"disconnected"` lifecycle event is emitted exactly once in the
whole trace (failed reconnect attempts emit only `"error"`), provided the
feed never sends a wire message tagged with the reserved lifecycle kind
`"disconnected"`. -/
theorem C7_disconnected_once (cfg : StreamConfig) (reg : HandlerReg)
    (fuel : Nat) (st : SessState) (env : RunEnv) (out : SessState × List Ev)
    (hb : benignEnv env = true) (h : run cfg reg fuel st env = some out) :
    countDisc out.2 = 1 ∧ out.1.running = false ∧ out.1.connected = false := by
  have hr := runLoop_disc_once cfg reg fuel { st with running := true } env [] out hb h
  exact ⟨by simpa [countDisc] using hr.1, hr.2.1, hr.2.2⟩

/-- Claim C7, witness: a connected session whose transport read fails with
auto-reconnect disabled exits the loop and emits `"disconnected"` exactly
once. -/
theorem C7_disconnected_once_witness :
    countDisc [Ev.emitted "disconnected"] = 1
    ∧ (⟨false, false, false, false, 0, Subscription.init⟩ : SessState).running
        = false
    ∧ (⟨false, false, false, false, 0, Subscription.init⟩ : SessState).connected
        = false :=
  C7_disconnected_once { auto_reconnect := false } [] 5
    ⟨true, true, true, false, 0, Subscription.init⟩ ⟨[(.raised, false)], []⟩
    (⟨false, false, false, false, 0, Subscription.init⟩, [.emitted "disconnected"])
    (by decide) (by decide)

end Alpaca
